import Mathlib

/-!
# AD4826AController protocol layer: a shallow embedding

This file embeds the protocol core of `ad4826.py` (class `AD4826AController`)
in Lean 4 and proves the testable properties of its specification against it.

Modelling conventions:
* Python `bytes` and `str` values are both `List Nat`: a byte sequence is a
  list of byte values, a string is its list of Unicode code points (all
  strings involved are ASCII, where the two coincide byte-for-byte).
* `str.encode('ascii')` fails iff some code point is ≥ 128; it is modelled by
  `encodeAscii`, returning `none` on failure.
* `bytes.decode('ascii', errors='ignore')` keeps exactly the bytes < 128 and
  drops the rest; it is modelled by `decodeAsciiIgnore`.
* Python slices `b[i:j]` and `b[i:-2]` are modelled by `pySlice` and
  `pySliceToNeg2`.
* The serial transport is an external collaborator: it is a parameter
  `tr : σ → List Nat → List Nat × σ` taking the device state and the frame
  written, and returning the bytes produced by `read_until(b'\r\n')` together
  with the next device state.  Each operation additionally returns the list
  of frames actually written to the transport, in order.
* `raise ValueError` / `UnicodeEncodeError` become `Except BuildError`.
* The amount argument of `cut_out_amount` is given in integer milli-units
  (`amountMilli = 120000` stands for `120.0`): for such values the binary
  float is exact and Python's `%.3f` rounding is the identity, so the
  formatting model below is byte-exact.
-/

/-- Code points of a Lean string literal; used to transcribe the Python
string literals of the source. -/
def strBytes (s : String) : List Nat := s.data.map Char.toNat

/-- Python `s.ljust(w, fill)`. -/
def ljust (s : List Nat) (w : Nat) (fill : Nat) : List Nat :=
  s ++ List.replicate (w - s.length) fill

/-- Left padding with a fill character up to width `w`, as performed by
Python's `0`-fill in a format spec. -/
def leftPad (fill : Nat) (w : Nat) (s : List Nat) : List Nat :=
  List.replicate (w - s.length) fill ++ s

/-- Python slice `l[a:b]` for nonnegative bounds. -/
def pySlice (l : List Nat) (a b : Nat) : List Nat :=
  (l.drop a).take (b - a)

/-- Python slice `l[a:-2]`. -/
def pySliceToNeg2 (l : List Nat) (a : Nat) : List Nat :=
  (l.drop a).take (l.length - 2 - a)

/-- `str.encode('ascii')`: succeeds iff every code point is < 128, and the
byte sequence then equals the code-point sequence. -/
def encodeAscii (s : List Nat) : Option (List Nat) :=
  if ∀ x ∈ s, x < 128 then some s else none

/-- `bytes.decode('ascii', errors='ignore')`: bytes ≥ 128 are dropped,
bytes < 128 decode to themselves. -/
def decodeAsciiIgnore (bs : List Nat) : List Nat :=
  bs.filter (fun b => decide (b < 128))

/-- One uppercase hexadecimal digit character code. -/
def hexDigit (d : Nat) : Nat := if d < 10 then 48 + d else 55 + d

/-- Little-endian uppercase hex digits of `n`, with structural fuel so the
definition reduces in the kernel. -/
def hexRevFuel : Nat → Nat → List Nat
  | 0, _ => []
  | _ + 1, 0 => []
  | fuel + 1, n + 1 => hexDigit ((n + 1) % 16) :: hexRevFuel fuel ((n + 1) / 16)

/-- Uppercase hexadecimal representation of `n` (Python `format(n, 'X')`). -/
def natHexUpper (n : Nat) : List Nat :=
  if n = 0 then [48] else (hexRevFuel n n).reverse

/-- Python `format(n, '02X')`. -/
def pyHex02X (n : Nat) : List Nat := leftPad 48 2 (natHexUpper n)

/-- Little-endian decimal digit character codes of `n`, with structural
fuel so the definition reduces in the kernel. -/
def decRevFuel : Nat → Nat → List Nat
  | 0, _ => []
  | _ + 1, 0 => []
  | fuel + 1, n + 1 => (48 + (n + 1) % 10) :: decRevFuel fuel ((n + 1) / 10)

/-- Decimal representation of `n` without padding (Python `str(n)` on a
nonnegative int). -/
def natDec (n : Nat) : List Nat :=
  if n = 0 then [48] else (decRevFuel n n).reverse

/-- `AD4826AController.parse_header`: classify a response header byte as
`"STX"` (0x02), `"ACK"` (0x06), `"NAK"` (0x15) or `"UNKNOWN(0x%02X)"`. -/
def parse_header (b : Nat) : List Nat :=
  if b = 2 then strBytes "STX"
  else if b = 6 then strBytes "ACK"
  else if b = 21 then strBytes "NAK"
  else strBytes "UNKNOWN(0x" ++ pyHex02X b ++ strBytes ")"

/-- Failure modes of `build_command_frame`: the `ValueError` raised on a
command code longer than 8 characters, and the `UnicodeEncodeError` raised
by `str.encode('ascii')` on a non-ASCII character. -/
inductive BuildError where
  | invalidCommandCode : BuildError
  | encodeError : BuildError
deriving DecidableEq, Repr

/-- Assembly step of `build_command_frame` once the command code has been
padded/validated: `ENQ(0x05) + unit + channel + cmd + text + CRLF`, where
each field goes through `str.encode('ascii')` (the text only when nonempty,
mirroring `if text:`). -/
def assembleFrame (unit_no channel_no cmd text : List Nat) :
    Except BuildError (List Nat) :=
  match encodeAscii unit_no, encodeAscii channel_no, encodeAscii cmd,
      (if text = [] then some [] else encodeAscii text) with
  | some eu, some ec, some ek, some et =>
      Except.ok (5 :: (eu ++ ec ++ ek ++ et ++ [13, 10]))
  | _, _, _, _ => Except.error BuildError.encodeError

/-- `AD4826AController.build_command_frame`: pad a command code shorter than
8 characters with `'_'` (code 95), reject one longer than 8, then assemble
the ENQ frame. -/
def build_command_frame (unit_no channel_no cmd_code text : List Nat) :
    Except BuildError (List Nat) :=
  if cmd_code.length < 8 then
    assembleFrame unit_no channel_no (ljust cmd_code 8 95) text
  else if 8 < cmd_code.length then Except.error BuildError.invalidCommandCode
  else assembleFrame unit_no channel_no cmd_code text

/-- The dict returned by `AD4826AController.parse_response_frame`. -/
structure ParsedResponse where
  header_byte : Nat
  header_str : List Nat
  unit_no : List Nat
  channel_no : List Nat
  cmd_code : List Nat
  error_code : Option (List Nat)
  text_data : List Nat
deriving DecidableEq, Repr

/-- `AD4826AController.parse_response_frame`: reject responses shorter than
15 bytes; decode the unit, channel and command fields leniently; on a NAK
header (0x15) require ≥ 17 bytes and take the error code from bytes 13..15,
otherwise take the text from byte 13 up to the final two bytes. -/
def parse_response_frame (resp : List Nat) : Option ParsedResponse :=
  if resp.length < 15 then none
  else
    let header_byte := resp.headD 0
    let header_str := parse_header header_byte
    let unit_no := decodeAsciiIgnore (pySlice resp 1 3)
    let channel_no := decodeAsciiIgnore (pySlice resp 3 5)
    let cmd_code := decodeAsciiIgnore (pySlice resp 5 13)
    if header_byte = 21 then
      if resp.length < 13 + 4 then none
      else
        some { header_byte := header_byte, header_str := header_str,
               unit_no := unit_no, channel_no := channel_no,
               cmd_code := cmd_code,
               error_code := some (decodeAsciiIgnore (pySlice resp 13 15)),
               text_data := [] }
    else
      some { header_byte := header_byte, header_str := header_str,
             unit_no := unit_no, channel_no := channel_no,
             cmd_code := cmd_code, error_code := none,
             text_data := decodeAsciiIgnore (pySliceToNeg2 resp 13) }

/-! ## Exchange and device operations

The serial transport is modelled as a function `tr : σ → List Nat → List Nat × σ`
from the device state and the frame written by `self.ser.write(frame)` to the
bytes returned by `self.ser.read_until(b'\r\n')` and the next device state.
Each operation returns, besides its result, the list of frames written. -/

/-- `AD4826AController.send_command`: build the frame, write it, read until
CRLF, and parse.  An empty read and a failed parse both return `none` — the
two cases differ only in the log line printed, not in the returned value. -/
def send_command {σ : Type} (tr : σ → List Nat → List Nat × σ) (s : σ)
    (unit_no channel_no cmd_code text : List Nat) :
    Except BuildError (Option ParsedResponse × σ) × List (List Nat) :=
  match build_command_frame unit_no channel_no cmd_code text with
  | Except.error e => (Except.error e, [])
  | Except.ok frame =>
      let rs := tr s frame
      if rs.1 = [] then (Except.ok (none, rs.2), [frame])
      else (Except.ok (parse_response_frame rs.1, rs.2), [frame])

/-- `AD4826AController.get_current_weight`: send `GROSS___`; `none` on a
missing/unparsable response, a NAK header, or a text that is not a float.
`pyFloat` models the Python builtin `float` applied to the decoded text
(`none` standing for `ValueError`); no claim depends on its details. -/
def get_current_weight {σ : Type} (pyFloat : List Nat → Option ℚ)
    (tr : σ → List Nat → List Nat × σ) (s : σ)
    (unit_no channel_no : List Nat) :
    Except BuildError (Option ℚ × σ) × List (List Nat) :=
  match send_command tr s unit_no channel_no (strBytes "GROSS___") [] with
  | (Except.error e, w) => (Except.error e, w)
  | (Except.ok (none, s1), w) => (Except.ok (none, s1), w)
  | (Except.ok (some r, s1), w) =>
      if r.header_str = strBytes "NAK" then (Except.ok (none, s1), w)
      else (Except.ok (pyFloat r.text_data, s1), w)

/-- The text `f"+{amount:010.3f}"` computed by `cut_out_amount`, for an
amount that is an exact multiple of 0.001 given as `amountMilli` thousandths
(for such values the binary double is formatted exactly, so the model is
byte-exact): Python zero-pads the fixed-point rendering of the absolute
value to a TOTAL width of 10 characters (sign placed before the zeros),
then the f-string prefixes `'+'`. -/
def format010_3f (amountMilli : Int) : List Nat :=
  let a := amountMilli.natAbs
  let body := natDec (a / 1000) ++ [46] ++ leftPad 48 3 (natDec (a % 1000))
  if amountMilli < 0 then 45 :: leftPad 48 9 body else leftPad 48 10 body

/-- `text_value = f"+{amount:010.3f}"` from `cut_out_amount`. -/
def cutOutText (amountMilli : Int) : List Nat := 43 :: format010_3f amountMilli

/-- `AD4826AController.cut_out_amount`: write the fill amount with
`FF______`, then — only if that produced a non-NAK parsed response — start
the cutout with `CFW_____`; `false` as soon as a step yields no parsed
response or a NAK. -/
def cut_out_amount {σ : Type} (tr : σ → List Nat → List Nat × σ) (s : σ)
    (unit_no channel_no : List Nat) (amountMilli : Int) :
    Except BuildError (Bool × σ) × List (List Nat) :=
  match send_command tr s unit_no channel_no (strBytes "FF______")
      (cutOutText amountMilli) with
  | (Except.error e, w1) => (Except.error e, w1)
  | (Except.ok (none, s1), w1) => (Except.ok (false, s1), w1)
  | (Except.ok (some r, s1), w1) =>
      if r.header_str = strBytes "NAK" then (Except.ok (false, s1), w1)
      else
        match send_command tr s1 unit_no channel_no (strBytes "CFW_____") [] with
        | (Except.error e, w2) => (Except.error e, w1 ++ w2)
        | (Except.ok (none, s2), w2) => (Except.ok (false, s2), w1 ++ w2)
        | (Except.ok (some r2, s2), w2) =>
            if r2.header_str = strBytes "NAK" then
              (Except.ok (false, s2), w1 ++ w2)
            else (Except.ok (true, s2), w1 ++ w2)

/-- `AD4826AController.discharge_all`: send `FDIS____`; `true` iff a parsed,
non-NAK response came back. -/
def discharge_all {σ : Type} (tr : σ → List Nat → List Nat × σ) (s : σ)
    (unit_no channel_no : List Nat) :
    Except BuildError (Bool × σ) × List (List Nat) :=
  match send_command tr s unit_no channel_no (strBytes "FDIS____") [] with
  | (Except.error e, w) => (Except.error e, w)
  | (Except.ok (none, s1), w) => (Except.ok (false, s1), w)
  | (Except.ok (some r, s1), w) =>
      if r.header_str = strBytes "NAK" then (Except.ok (false, s1), w)
      else (Except.ok (true, s1), w)

/-- The frame `cut_out_amount` writes in its first step (used to phrase
claims about that step). -/
def ffFrame (unit_no channel_no : List Nat) (amountMilli : Int) : List Nat :=
  5 :: (unit_no ++ channel_no ++ strBytes "FF______" ++
    cutOutText amountMilli ++ [13, 10])

/-! ## Helper lemmas about the embedded primitives -/

theorem encodeAscii_of_ascii {s : List Nat} (h : ∀ x ∈ s, x < 128) :
    encodeAscii s = some s := by
  unfold encodeAscii
  exact if_pos h

theorem decodeAsciiIgnore_of_ascii {s : List Nat} (h : ∀ x ∈ s, x < 128) :
    decodeAsciiIgnore s = s := by
  unfold decodeAsciiIgnore
  rw [List.filter_eq_self]
  intro a ha
  simpa using h a ha

theorem ljust_eq_self {s : List Nat} (h : s.length = 8) : ljust s 8 95 = s := by
  simp [ljust, h]

theorem ljust_length {s : List Nat} (h : s.length ≤ 8) :
    (ljust s 8 95).length = 8 := by
  simp [ljust]
  omega

theorem ljust_ascii {s : List Nat} (h : ∀ x ∈ s, x < 128) :
    ∀ x ∈ ljust s 8 95, x < 128 := by
  intro x hx
  rcases List.mem_append.mp hx with h1 | h2
  · exact h x h1
  · have := List.eq_of_mem_replicate h2
    omega

theorem assembleFrame_ok {u c k t : List Nat} (hua : ∀ x ∈ u, x < 128)
    (hca : ∀ x ∈ c, x < 128) (hka : ∀ x ∈ k, x < 128) (hta : ∀ x ∈ t, x < 128) :
    assembleFrame u c k t = Except.ok (5 :: (u ++ c ++ k ++ t ++ [13, 10])) := by
  unfold assembleFrame
  rw [encodeAscii_of_ascii hua, encodeAscii_of_ascii hca, encodeAscii_of_ascii hka]
  by_cases ht : t = []
  · subst ht
    simp
  · rw [if_neg ht, encodeAscii_of_ascii hta]

/-- Successful `build_command_frame` on a command code of at most 8
characters: the frame is ENQ, the fields verbatim (the command code
right-padded with `'_'`), and CRLF. -/
theorem build_command_frame_ok {u c k t : List Nat} (hk : k.length ≤ 8)
    (hua : ∀ x ∈ u, x < 128) (hca : ∀ x ∈ c, x < 128) (hka : ∀ x ∈ k, x < 128)
    (hta : ∀ x ∈ t, x < 128) :
    build_command_frame u c k t =
      Except.ok (5 :: (u ++ c ++ ljust k 8 95 ++ t ++ [13, 10])) := by
  unfold build_command_frame
  by_cases h : k.length < 8
  · rw [if_pos h]
    exact assembleFrame_ok hua hca (ljust_ascii hka) hta
  · have h8 : k.length = 8 := Nat.le_antisymm hk (Nat.not_lt.mp h)
    rw [if_neg h, if_neg (by omega), ljust_eq_self h8]
    exact assembleFrame_ok hua hca hka hta

/-- `parse_response_frame` on a frame with the outbound layout: 1-byte
header 0x05, 2-byte unit, 2-byte channel, 8-byte command, text, CRLF. -/
theorem parse_frame_shape {u c k t : List Nat} (hu : u.length = 2)
    (hc : c.length = 2) (hk : k.length = 8) :
    parse_response_frame (5 :: (u ++ c ++ k ++ t ++ [13, 10])) =
      some { header_byte := 5, header_str := parse_header 5,
             unit_no := decodeAsciiIgnore u, channel_no := decodeAsciiIgnore c,
             cmd_code := decodeAsciiIgnore k, error_code := none,
             text_data := decodeAsciiIgnore t } := by
  have hassoc : u ++ c ++ k ++ t ++ [13, 10] =
      u ++ (c ++ (k ++ (t ++ [13, 10]))) := by
    simp [List.append_assoc]
  set f := 5 :: (u ++ c ++ k ++ t ++ [13, 10]) with hf
  have hlen : f.length = t.length + 15 := by
    simp only [hf, List.length_cons, List.length_append, List.length_nil, hu,
      hc, hk]
    omega
  have hd1 : f.drop 1 = u ++ (c ++ (k ++ (t ++ [13, 10]))) := by
    rw [hf, hassoc]
    rfl
  have hd3 : f.drop 3 = c ++ (k ++ (t ++ [13, 10])) := by
    have h1 : f.drop 3 = (f.drop 1).drop 2 := (List.drop_drop 2 1 f).symm
    rw [h1, hd1, List.drop_left' hu]
  have hd5 : f.drop 5 = k ++ (t ++ [13, 10]) := by
    have h1 : f.drop 5 = (f.drop 3).drop 2 := (List.drop_drop 2 3 f).symm
    rw [h1, hd3, List.drop_left' hc]
  have hd13 : f.drop 13 = t ++ [13, 10] := by
    have h1 : f.drop 13 = (f.drop 5).drop 8 := (List.drop_drop 8 5 f).symm
    rw [h1, hd5, List.drop_left' hk]
  have hs13 : pySlice f 1 3 = u := by
    simp only [pySlice]
    rw [hd1]
    exact List.take_left' hu
  have hs35 : pySlice f 3 5 = c := by
    simp only [pySlice]
    rw [hd3]
    exact List.take_left' hc
  have hs513 : pySlice f 5 13 = k := by
    simp only [pySlice]
    rw [hd5]
    exact List.take_left' hk
  have hst : pySliceToNeg2 f 13 = t := by
    simp only [pySliceToNeg2]
    rw [hd13, hlen]
    have harith : t.length + 15 - 2 - 13 = t.length := by omega
    rw [harith]
    exact List.take_left' rfl
  have hhead : f.head? = some 5 := by
    rw [hf]
    rfl
  have h15 : ¬ f.length < 15 := by omega
  simp [parse_response_frame, h15, hhead, hs13, hs35, hs513, hst]

/-! ## Claims about the frame codec -/

/-- C2: for unit and channel numbers of exactly 2 ASCII characters, a command
code of at most 8 (ASCII) characters and ASCII text, parsing the frame built
by `build_command_frame` recovers the same unit number, the same channel
number, and the command code right-padded with `'_'` to 8 characters. -/
theorem C2_roundtrip (u c k t : List Nat) (hu : u.length = 2)
    (hc : c.length = 2) (hk : k.length ≤ 8) (hua : ∀ x ∈ u, x < 128)
    (hca : ∀ x ∈ c, x < 128) (hka : ∀ x ∈ k, x < 128)
    (hta : ∀ x ∈ t, x < 128) :
    ∃ frame r, build_command_frame u c k t = Except.ok frame ∧
      parse_response_frame frame = some r ∧
      r.unit_no = u ∧ r.channel_no = c ∧ r.cmd_code = ljust k 8 95 := by
  refine ⟨_, _, build_command_frame_ok hk hua hca hka hta,
    parse_frame_shape hu hc (ljust_length hk), ?_, ?_, ?_⟩
  · exact decodeAsciiIgnore_of_ascii hua
  · exact decodeAsciiIgnore_of_ascii hca
  · exact decodeAsciiIgnore_of_ascii (ljust_ascii hka)

theorem C2_roundtrip_witness :
    ∃ frame r,
      build_command_frame (strBytes "00") (strBytes "01") (strBytes "GROSS")
        (strBytes "+1.5") = Except.ok frame ∧
      parse_response_frame frame = some r ∧
      r.unit_no = strBytes "00" ∧ r.channel_no = strBytes "01" ∧
      r.cmd_code = ljust (strBytes "GROSS") 8 95 :=
  C2_roundtrip (strBytes "00") (strBytes "01") (strBytes "GROSS")
    (strBytes "+1.5") (by decide) (by decide) (by decide) (by decide)
    (by decide) (by decide) (by decide)

/-- C3: responses shorter than 15 bytes are rejected; NAK-headed responses of
length 15 or 16 are rejected; a NAK-headed response of length exactly 17
parses successfully with the error code taken from bytes 13..15. -/
theorem C3_min_length_boundary (resp : List Nat) :
    (resp.length < 15 → parse_response_frame resp = none) ∧
    (resp.headD 0 = 21 → 15 ≤ resp.length → resp.length < 17 →
      parse_response_frame resp = none) ∧
    (resp.headD 0 = 21 → resp.length = 17 →
      ∃ r, parse_response_frame resp = some r ∧
        r.error_code = some (decodeAsciiIgnore (pySlice resp 13 15))) := by
  refine ⟨fun h => ?_, fun hh h15 h17 => ?_, fun hh h17 => ?_⟩
  · unfold parse_response_frame
    exact if_pos h
  · unfold parse_response_frame
    rw [if_neg (Nat.not_lt.mpr h15)]
    dsimp only
    rw [if_pos hh, if_pos h17]
  · unfold parse_response_frame
    rw [if_neg (by omega : ¬ resp.length < 15)]
    dsimp only
    rw [if_pos hh, if_neg (by omega : ¬ resp.length < 13 + 4)]
    exact ⟨_, rfl, rfl⟩

theorem C3_min_length_boundary_witness :
    parse_response_frame [2, 48] = none ∧
    parse_response_frame (21 :: List.replicate 15 48) = none ∧
    ∃ r, parse_response_frame (21 :: List.replicate 16 48) = some r ∧
      r.error_code = some (decodeAsciiIgnore
        (pySlice (21 :: List.replicate 16 48) 13 15)) :=
  ⟨(C3_min_length_boundary [2, 48]).1 (by decide),
   (C3_min_length_boundary (21 :: List.replicate 15 48)).2.1 (by decide)
     (by decide) (by decide),
   (C3_min_length_boundary (21 :: List.replicate 16 48)).2.2 (by decide)
     (by decide)⟩

/-- C6: a command code shorter than 8 characters is right-padded with `'_'`
in the command field of the built frame; at exactly 8 characters it is kept
unchanged; longer than 8, `build_command_frame` fails with
`invalidCommandCode` and produces no frame. -/
theorem C6_padding_invariant (u c k t : List Nat) :
    (k.length ≤ 8 → (∀ x ∈ u, x < 128) → (∀ x ∈ c, x < 128) →
      (∀ x ∈ k, x < 128) → (∀ x ∈ t, x < 128) →
      build_command_frame u c k t =
        Except.ok (5 :: (u ++ c ++ ljust k 8 95 ++ t ++ [13, 10])) ∧
      (k.length = 8 → ljust k 8 95 = k)) ∧
    (8 < k.length →
      build_command_frame u c k t =
        Except.error BuildError.invalidCommandCode) := by
  constructor
  · intro hk hua hca hka hta
    exact ⟨build_command_frame_ok hk hua hca hka hta, fun h8 => ljust_eq_self h8⟩
  · intro h
    unfold build_command_frame
    rw [if_neg (by omega), if_pos h]

theorem C6_padding_invariant_witness :
    (build_command_frame (strBytes "00") (strBytes "00") (strBytes "FF") [] =
      Except.ok (5 :: (strBytes "00" ++ strBytes "00" ++
        ljust (strBytes "FF") 8 95 ++ [] ++ [13, 10])) ∧
      ((strBytes "FF").length = 8 → ljust (strBytes "FF") 8 95 = strBytes "FF")) ∧
    build_command_frame (strBytes "00") (strBytes "00") (strBytes "CODE12345")
      [] = Except.error BuildError.invalidCommandCode :=
  ⟨(C6_padding_invariant (strBytes "00") (strBytes "00") (strBytes "FF")
      []).1 (by decide) (by decide) (by decide) (by decide) (by decide),
   (C6_padding_invariant (strBytes "00") (strBytes "00")
      (strBytes "CODE12345") []).2 (by decide)⟩

theorem headD_eq_getD (l : List Nat) : l.headD 0 = l.head?.getD 0 := by
  cases l <;> rfl

theorem pySlice_take15 (l : List Nat) (a b : Nat) (hab : a ≤ b)
    (hb : b ≤ 15) : pySlice l a b = pySlice (l.take 15) a b := by
  unfold pySlice
  rw [List.take_drop, List.take_drop]
  congr 1
  rw [List.take_take]
  congr 1
  omega

theorem decRevFuel_ascii (fuel : Nat) : ∀ n, ∀ x ∈ decRevFuel fuel n, x < 128 := by
  induction fuel with
  | zero =>
      intro n x hx
      simp [decRevFuel] at hx
  | succ fuel ih =>
      intro n x hx
      cases n with
      | zero => simp [decRevFuel] at hx
      | succ m =>
          simp only [decRevFuel] at hx
          rcases List.mem_cons.mp hx with h | h
          · have hm : (m + 1) % 10 < 10 := Nat.mod_lt _ (by omega)
            omega
          · exact ih _ x h

theorem natDec_ascii (n : Nat) : ∀ x ∈ natDec n, x < 128 := by
  intro x hx
  unfold natDec at hx
  split at hx
  · simp at hx
    omega
  · rw [List.mem_reverse] at hx
    exact decRevFuel_ascii n n x hx

theorem leftPad_mem {fill w x : Nat} {s : List Nat}
    (hx : x ∈ leftPad fill w s) : x = fill ∨ x ∈ s := by
  rcases List.mem_append.mp hx with h | h
  · exact Or.inl (List.eq_of_mem_replicate h)
  · exact Or.inr h

theorem format010_3f_ascii (m : Int) : ∀ x ∈ format010_3f m, x < 128 := by
  intro x hx
  have hbody : ∀ y ∈ natDec (m.natAbs / 1000) ++ [46] ++
      leftPad 48 3 (natDec (m.natAbs % 1000)), y < 128 := by
    intro y hy
    rcases List.mem_append.mp hy with h1 | h2
    · rcases List.mem_append.mp h1 with h3 | h4
      · exact natDec_ascii _ y h3
      · simp at h4
        omega
    · rcases leftPad_mem h2 with h5 | h6
      · omega
      · exact natDec_ascii _ y h6
  unfold format010_3f at hx
  dsimp only at hx
  split at hx
  · rcases List.mem_cons.mp hx with h | h
    · omega
    · rcases leftPad_mem h with h1 | h2
      · omega
      · exact hbody x h2
  · rcases leftPad_mem hx with h1 | h2
    · omega
    · exact hbody x h2

theorem cutOutText_ascii (m : Int) : ∀ x ∈ cutOutText m, x < 128 := by
  intro x hx
  unfold cutOutText at hx
  rcases List.mem_cons.mp hx with h | h
  · omega
  · exact format010_3f_ascii m x h

theorem encodeAscii_of_bad {s : List Nat} (h : ∃ x ∈ s, 128 ≤ x) :
    encodeAscii s = none := by
  unfold encodeAscii
  rw [if_neg]
  intro hall
  obtain ⟨x, hx, hxa⟩ := h
  have := hall x hx
  omega

theorem assembleFrame_err {u c k t : List Nat}
    (hbad : encodeAscii u = none ∨ encodeAscii c = none ∨
      (t ≠ [] ∧ encodeAscii t = none)) :
    assembleFrame u c k t = Except.error BuildError.encodeError := by
  unfold assembleFrame
  rcases hbad with h | h | ⟨ht, h⟩
  · rw [h]
  · rw [h]
    cases encodeAscii u <;> cases encodeAscii k <;>
      cases (if t = [] then some [] else encodeAscii t) <;> rfl
  · rw [if_neg ht, h]
    cases encodeAscii u <;> cases encodeAscii c <;> cases encodeAscii k <;> rfl

/-- `build_command_frame` on a command code of exactly 8 ASCII characters:
kept verbatim in the frame. -/
theorem build_command_frame_ok8 {u c k t : List Nat} (hk : k.length = 8)
    (hua : ∀ x ∈ u, x < 128) (hca : ∀ x ∈ c, x < 128)
    (hka : ∀ x ∈ k, x < 128) (hta : ∀ x ∈ t, x < 128) :
    build_command_frame u c k t =
      Except.ok (5 :: (u ++ c ++ k ++ t ++ [13, 10])) := by
  rw [build_command_frame_ok (Nat.le_of_eq hk) hua hca hka hta,
    ljust_eq_self hk]

/-- Evaluation of `send_command` once the frame build is known to succeed:
the frame is written, and the result is `none` exactly when the read was
empty or the parse failed. -/
theorem send_command_eq {σ : Type} (tr : σ → List Nat → List Nat × σ) (s : σ)
    {u c k t frame : List Nat}
    (hb : build_command_frame u c k t = Except.ok frame) :
    send_command tr s u c k t =
      (Except.ok ((if (tr s frame).1 = [] then none
          else parse_response_frame (tr s frame).1), (tr s frame).2),
        [frame]) := by
  unfold send_command
  rw [hb]
  dsimp only
  by_cases he : (tr s frame).1 = []
  · rw [if_pos he, if_pos he]
  · rw [if_neg he, if_neg he]

theorem send_command_empty {σ : Type} (tr : σ → List Nat → List Nat × σ)
    (s : σ) {u c k t frame : List Nat}
    (hb : build_command_frame u c k t = Except.ok frame)
    (he : (tr s frame).1 = []) :
    send_command tr s u c k t =
      (Except.ok (none, (tr s frame).2), [frame]) := by
  rw [send_command_eq tr s hb, if_pos he]

/-- C8: a non-NAK response of length ≥ 15 whose text field contains a
non-ASCII byte still parses successfully, and every decoded field is the
raw field with exactly the bytes ≥ 128 dropped. -/
theorem C8_lenient_decode (resp : List Nat) (h15 : 15 ≤ resp.length)
    (hh : resp.headD 0 ≠ 21)
    (_hbad : ∃ b ∈ pySliceToNeg2 resp 13, 128 ≤ b) :
    ∃ r, parse_response_frame resp = some r ∧
      r.text_data = (pySliceToNeg2 resp 13).filter (fun b => decide (b < 128)) ∧
      r.unit_no = (pySlice resp 1 3).filter (fun b => decide (b < 128)) ∧
      r.channel_no = (pySlice resp 3 5).filter (fun b => decide (b < 128)) ∧
      r.cmd_code = (pySlice resp 5 13).filter (fun b => decide (b < 128)) := by
  unfold parse_response_frame
  rw [if_neg (Nat.not_lt.mpr h15)]
  dsimp only
  rw [if_neg hh]
  exact ⟨_, rfl, rfl, rfl, rfl, rfl⟩

theorem C8_lenient_decode_witness :
    ∃ r, parse_response_frame [2, 48, 48, 48, 48, 71, 82, 79, 83, 83, 95, 95,
        95, 49, 200, 50, 13, 10] = some r ∧
      r.text_data = (pySliceToNeg2 [2, 48, 48, 48, 48, 71, 82, 79, 83, 83, 95,
        95, 95, 49, 200, 50, 13, 10] 13).filter (fun b => decide (b < 128)) ∧
      r.unit_no = (pySlice [2, 48, 48, 48, 48, 71, 82, 79, 83, 83, 95, 95, 95,
        49, 200, 50, 13, 10] 1 3).filter (fun b => decide (b < 128)) ∧
      r.channel_no = (pySlice [2, 48, 48, 48, 48, 71, 82, 79, 83, 83, 95, 95,
        95, 49, 200, 50, 13, 10] 3 5).filter (fun b => decide (b < 128)) ∧
      r.cmd_code = (pySlice [2, 48, 48, 48, 48, 71, 82, 79, 83, 83, 95, 95,
        95, 49, 200, 50, 13, 10] 5 13).filter (fun b => decide (b < 128)) :=
  C8_lenient_decode [2, 48, 48, 48, 48, 71, 82, 79, 83, 83, 95, 95, 95, 49,
    200, 50, 13, 10] (by decide) (by decide) ⟨200, by decide, by decide⟩

/-- C9: `parse_response_frame` never inspects the trailing terminator: it
returns `none` exactly on the two length conditions (length < 15, or NAK
header and length < 17); any non-NAK response of length ≥ 15 parses with the
final two bytes discarded from the text; and two NAK responses of length
≥ 17 agreeing on their first 15 bytes parse identically. -/
theorem C9_terminator_not_inspected (resp resp2 : List Nat) :
    (parse_response_frame resp = none ↔
      resp.length < 15 ∨ (resp.headD 0 = 21 ∧ resp.length < 17)) ∧
    (15 ≤ resp.length → resp.headD 0 ≠ 21 →
      ∃ r, parse_response_frame resp = some r ∧
        r.text_data = decodeAsciiIgnore (pySliceToNeg2 resp 13)) ∧
    (resp.headD 0 = 21 → 17 ≤ resp.length → 17 ≤ resp2.length →
      resp.take 15 = resp2.take 15 →
      parse_response_frame resp = parse_response_frame resp2) := by
  refine ⟨?_, fun h15 hh => ?_, fun hh h17 h17' htake => ?_⟩
  · by_cases h15 : resp.length < 15
    · simp [parse_response_frame, h15]
    · by_cases hh : resp.headD 0 = 21
      · have hh' : resp.head?.getD 0 = 21 := by
          rw [← headD_eq_getD]
          exact hh
        by_cases h17 : resp.length < 17
        · unfold parse_response_frame
          rw [if_neg h15]
          dsimp only
          rw [if_pos hh, if_pos h17]
          simp [h15, hh', h17]
        · unfold parse_response_frame
          rw [if_neg h15]
          dsimp only
          rw [if_pos hh, if_neg h17]
          simp [h15, h17]
      · have hh' : ¬resp.head?.getD 0 = 21 := by
          rw [← headD_eq_getD]
          exact hh
        unfold parse_response_frame
        rw [if_neg h15]
        dsimp only
        rw [if_neg hh]
        simp [h15, hh']
  · unfold parse_response_frame
    rw [if_neg (Nat.not_lt.mpr h15)]
    dsimp only
    rw [if_neg hh]
    exact ⟨_, rfl, rfl⟩
  · have hhead : resp.head? = resp2.head? := by
      have h1 := congrArg List.head? htake
      rwa [List.head?_take, List.head?_take, if_neg (by decide),
        if_neg (by decide)] at h1
    have hh2 : resp2.headD 0 = 21 := by
      rw [headD_eq_getD, ← hhead, ← headD_eq_getD]
      exact hh
    have e13 : pySlice resp 1 3 = pySlice resp2 1 3 := by
      rw [pySlice_take15 resp 1 3 (by omega) (by omega),
        pySlice_take15 resp2 1 3 (by omega) (by omega), htake]
    have e35 : pySlice resp 3 5 = pySlice resp2 3 5 := by
      rw [pySlice_take15 resp 3 5 (by omega) (by omega),
        pySlice_take15 resp2 3 5 (by omega) (by omega), htake]
    have e513 : pySlice resp 5 13 = pySlice resp2 5 13 := by
      rw [pySlice_take15 resp 5 13 (by omega) (by omega),
        pySlice_take15 resp2 5 13 (by omega) (by omega), htake]
    have e1315 : pySlice resp 13 15 = pySlice resp2 13 15 := by
      rw [pySlice_take15 resp 13 15 (by omega) (by omega),
        pySlice_take15 resp2 13 15 (by omega) (by omega), htake]
    unfold parse_response_frame
    rw [if_neg (by omega : ¬resp.length < 15),
      if_neg (by omega : ¬resp2.length < 15)]
    dsimp only
    rw [if_pos hh, if_pos hh2, if_neg (by omega : ¬resp.length < 13 + 4),
      if_neg (by omega : ¬resp2.length < 13 + 4), hh, hh2, e13, e35, e513,
      e1315]

theorem C9_terminator_not_inspected_witness :
    (parse_response_frame [6, 48, 48, 48, 48, 70, 70, 95, 95, 95, 95, 95, 95,
        65, 66] = none ↔
      ([6, 48, 48, 48, 48, 70, 70, 95, 95, 95, 95, 95, 95, 65,
        66] : List Nat).length < 15 ∨
      (([6, 48, 48, 48, 48, 70, 70, 95, 95, 95, 95, 95, 95, 65,
        66] : List Nat).headD 0 = 21 ∧
       ([6, 48, 48, 48, 48, 70, 70, 95, 95, 95, 95, 95, 95, 65,
        66] : List Nat).length < 17)) ∧
    (∃ r, parse_response_frame [6, 48, 48, 48, 48, 70, 70, 95, 95, 95, 95, 95,
        95, 65, 66] = some r ∧
      r.text_data = decodeAsciiIgnore (pySliceToNeg2 [6, 48, 48, 48, 48, 70,
        70, 95, 95, 95, 95, 95, 95, 65, 66] 13)) ∧
    parse_response_frame (21 :: List.replicate 14 48 ++ [65, 66, 67]) =
      parse_response_frame (21 :: List.replicate 14 48 ++ [68, 69, 70]) :=
  ⟨(C9_terminator_not_inspected [6, 48, 48, 48, 48, 70, 70, 95, 95, 95, 95,
      95, 95, 65, 66] []).1,
   (C9_terminator_not_inspected [6, 48, 48, 48, 48, 70, 70, 95, 95, 95, 95,
      95, 95, 65, 66] []).2.1 (by decide) (by decide),
   (C9_terminator_not_inspected (21 :: List.replicate 14 48 ++ [65, 66, 67])
      (21 :: List.replicate 14 48 ++ [68, 69, 70])).2.2 (by decide)
      (by decide) (by decide) (by decide)⟩

theorem frame_pySlice_cmd {u c k t : List Nat} (hu : u.length = 2)
    (hc : c.length = 2) (hk : k.length = 8) :
    pySlice (5 :: (u ++ c ++ k ++ t ++ [13, 10])) 5 13 = k := by
  have hassoc : u ++ c ++ k ++ t ++ [13, 10] =
      u ++ (c ++ (k ++ (t ++ [13, 10]))) := by
    simp [List.append_assoc]
  set f := 5 :: (u ++ c ++ k ++ t ++ [13, 10]) with hf
  have hd1 : f.drop 1 = u ++ (c ++ (k ++ (t ++ [13, 10]))) := by
    rw [hf, hassoc]
    rfl
  have hd3 : f.drop 3 = c ++ (k ++ (t ++ [13, 10])) := by
    have h1 : f.drop 3 = (f.drop 1).drop 2 := (List.drop_drop 2 1 f).symm
    rw [h1, hd1, List.drop_left' hu]
  have hd5 : f.drop 5 = k ++ (t ++ [13, 10]) := by
    have h1 : f.drop 5 = (f.drop 3).drop 2 := (List.drop_drop 2 3 f).symm
    rw [h1, hd3, List.drop_left' hc]
  simp only [pySlice]
  rw [hd5]
  exact List.take_left' hk

/-! ## Claims about the exchange layer and the device operations -/

/-- C10: `build_command_frame` performs no explicit validation of the unit
number, channel number or text, yet any non-ASCII character in them makes it
fail with the encode error — producing no frame — and `send_command` then
writes nothing to the transport.  (The command code is assumed to pass its
own length validation, which runs first.) -/
theorem C10_nonascii_rejected {σ : Type} (tr : σ → List Nat → List Nat × σ)
    (s : σ) (u c k t : List Nat) (hk : k.length ≤ 8)
    (hbad : (∃ x ∈ u, 128 ≤ x) ∨ (∃ x ∈ c, 128 ≤ x) ∨ (∃ x ∈ t, 128 ≤ x)) :
    build_command_frame u c k t = Except.error BuildError.encodeError ∧
    send_command tr s u c k t = (Except.error BuildError.encodeError, []) := by
  have herr : ∀ k' : List Nat,
      assembleFrame u c k' t = Except.error BuildError.encodeError := by
    intro k'
    apply assembleFrame_err
    rcases hbad with h | h | h
    · exact Or.inl (encodeAscii_of_bad h)
    · exact Or.inr (Or.inl (encodeAscii_of_bad h))
    · refine Or.inr (Or.inr ⟨?_, encodeAscii_of_bad h⟩)
      obtain ⟨x, hx, _⟩ := h
      intro ht
      rw [ht] at hx
      simp at hx
  have hb : build_command_frame u c k t =
      Except.error BuildError.encodeError := by
    unfold build_command_frame
    by_cases hlt : k.length < 8
    · rw [if_pos hlt]
      exact herr _
    · rw [if_neg hlt, if_neg (by omega)]
      exact herr _
  refine ⟨hb, ?_⟩
  unfold send_command
  rw [hb]

theorem C10_nonascii_rejected_witness :
    build_command_frame [48, 200] (strBytes "00") (strBytes "FF") [] =
      Except.error BuildError.encodeError ∧
    send_command (fun (_ : Unit) (_ : List Nat) => (([] : List Nat), ())) ()
        [48, 200] (strBytes "00") (strBytes "FF") [] =
      (Except.error BuildError.encodeError, []) :=
  C10_nonascii_rejected _ () [48, 200] (strBytes "00") (strBytes "FF") []
    (by decide) (Or.inl ⟨200, by decide, by decide⟩)

/-- C4: whenever the transport answers the `FF______` write with a NAK
frame, with bytes that do not parse, or with nothing at all, `cut_out_amount`
returns `false` after that single exchange and never writes a `CFW_____`
frame: the one frame written carries command `FF______`. -/
theorem C4_failure_no_second_step {σ : Type} (tr : σ → List Nat → List Nat × σ)
    (s : σ) (u c : List Nat) (m : Int) (hu2 : u.length = 2)
    (hc2 : c.length = 2) (hua : ∀ x ∈ u, x < 128) (hca : ∀ x ∈ c, x < 128)
    (hfail : (tr s (ffFrame u c m)).1 = [] ∨
      parse_response_frame (tr s (ffFrame u c m)).1 = none ∨
      ∃ r, parse_response_frame (tr s (ffFrame u c m)).1 = some r ∧
        r.header_str = strBytes "NAK") :
    cut_out_amount tr s u c m =
      (Except.ok (false, (tr s (ffFrame u c m)).2), [ffFrame u c m]) ∧
    ∀ w ∈ (cut_out_amount tr s u c m).2,
      pySlice w 5 13 ≠ strBytes "CFW_____" := by
  have hb : build_command_frame u c (strBytes "FF______") (cutOutText m) =
      Except.ok (ffFrame u c m) :=
    build_command_frame_ok8 (by decide) hua hca (by decide) (cutOutText_ascii m)
  have hsend := send_command_eq tr s hb
  have hres : cut_out_amount tr s u c m =
      (Except.ok (false, (tr s (ffFrame u c m)).2), [ffFrame u c m]) := by
    unfold cut_out_amount
    rw [hsend]
    rcases hfail with he | hp | ⟨r, hp, hnak⟩
    · rw [if_pos he]
    · by_cases he : (tr s (ffFrame u c m)).1 = []
      · rw [if_pos he]
      · rw [if_neg he, hp]
    · have he : (tr s (ffFrame u c m)).1 ≠ [] := by
        intro h0
        rw [h0] at hp
        simp [parse_response_frame] at hp
      rw [if_neg he, hp]
      dsimp only
      rw [if_pos hnak]
  refine ⟨hres, ?_⟩
  intro w hw
  rw [hres] at hw
  have hw' : w = ffFrame u c m := by simpa using hw
  have hcmd : pySlice (ffFrame u c m) 5 13 = strBytes "FF______" :=
    frame_pySlice_cmd hu2 hc2 (by decide)
  rw [hw', hcmd]
  decide

theorem C4_failure_no_second_step_witness :
    cut_out_amount (fun (_ : Unit) (_ : List Nat) =>
        (21 :: List.replicate 16 48, ())) () (strBytes "00") (strBytes "00")
        120000 =
      (Except.ok (false, ()),
        [ffFrame (strBytes "00") (strBytes "00") 120000]) ∧
    ∀ w ∈ (cut_out_amount (fun (_ : Unit) (_ : List Nat) =>
        (21 :: List.replicate 16 48, ())) () (strBytes "00") (strBytes "00")
        120000).2, pySlice w 5 13 ≠ strBytes "CFW_____" :=
  C4_failure_no_second_step _ () (strBytes "00") (strBytes "00") 120000
    (by decide) (by decide) (by decide) (by decide)
    (Or.inr (Or.inr ⟨_, rfl, rfl⟩))

/-- C5 (counterexample): an empty read and a malformed read produce the very
same value `none` from `send_command` — the two failure kinds are NOT
distinguishable in the value returned to the caller (only the printed log
line differs). -/
theorem C5_counterexample_indistinguishable :
    (send_command (fun (_ : Unit) (_ : List Nat) => (([] : List Nat), ())) ()
        (strBytes "00") (strBytes "00") (strBytes "GROSS___") []).1 =
      (send_command (fun (_ : Unit) (_ : List Nat) => (([0] : List Nat), ()))
        () (strBytes "00") (strBytes "00") (strBytes "GROSS___") []).1 ∧
    (send_command (fun (_ : Unit) (_ : List Nat) => (([] : List Nat), ())) ()
        (strBytes "00") (strBytes "00") (strBytes "GROSS___") []).1 =
      Except.ok (none, ()) :=
  ⟨rfl, rfl⟩

/-- C5 (amended): `send_command` collapses the empty-read timeout and the
decode failure into one and the same returned value `none`; the distinction
exists only in the log output. -/
theorem C5_failure_kinds_collapse {σ : Type} (tr : σ → List Nat → List Nat × σ)
    (s : σ) (u c k t frame : List Nat)
    (hb : build_command_frame u c k t = Except.ok frame) :
    ((tr s frame).1 = [] →
      (send_command tr s u c k t).1 = Except.ok (none, (tr s frame).2)) ∧
    ((tr s frame).1 ≠ [] → parse_response_frame (tr s frame).1 = none →
      (send_command tr s u c k t).1 = Except.ok (none, (tr s frame).2)) := by
  constructor
  · intro he
    rw [send_command_empty tr s hb he]
  · intro he hp
    rw [send_command_eq tr s hb]
    dsimp only
    rw [if_neg he, hp]

theorem C5_failure_kinds_collapse_witness :
    (send_command (fun (_ : Unit) (_ : List Nat) => (([] : List Nat), ())) ()
        (strBytes "00") (strBytes "00") (strBytes "GROSS___") []).1 =
      Except.ok (none, ()) ∧
    (send_command (fun (_ : Unit) (_ : List Nat) => (([0] : List Nat), ())) ()
        (strBytes "00") (strBytes "00") (strBytes "GROSS___") []).1 =
      Except.ok (none, ()) :=
  ⟨(C5_failure_kinds_collapse
      (fun (_ : Unit) (_ : List Nat) => (([] : List Nat), ())) ()
      (strBytes "00") (strBytes "00") (strBytes "GROSS___") []
      (5 :: (strBytes "00" ++ strBytes "00" ++ strBytes "GROSS___" ++ []
        ++ [13, 10])) rfl).1 rfl,
   (C5_failure_kinds_collapse
      (fun (_ : Unit) (_ : List Nat) => (([0] : List Nat), ())) ()
      (strBytes "00") (strBytes "00") (strBytes "GROSS___") []
      (5 :: (strBytes "00" ++ strBytes "00" ++ strBytes "GROSS___" ++ []
        ++ [13, 10])) rfl).2 (by decide) rfl⟩

/-- C7: against a transport whose every read returns no bytes,
`get_current_weight` returns `none` and `discharge_all` returns `false`. -/
theorem C7_no_response {σ : Type} (pyFloat : List Nat → Option ℚ)
    (tr : σ → List Nat → List Nat × σ) (s : σ) (u c : List Nat)
    (hua : ∀ x ∈ u, x < 128) (hca : ∀ x ∈ c, x < 128)
    (hempty : ∀ s' frame, (tr s' frame).1 = []) :
    (get_current_weight pyFloat tr s u c).1 =
      Except.ok (none,
        (tr s (5 :: (u ++ c ++ strBytes "GROSS___" ++ [] ++ [13, 10]))).2) ∧
    (discharge_all tr s u c).1 =
      Except.ok (false,
        (tr s (5 :: (u ++ c ++ strBytes "FDIS____" ++ [] ++ [13, 10]))).2) := by
  have hbG : build_command_frame u c (strBytes "GROSS___") [] =
      Except.ok (5 :: (u ++ c ++ strBytes "GROSS___" ++ [] ++ [13, 10])) :=
    build_command_frame_ok8 (by decide) hua hca (by decide) (by simp)
  have hbD : build_command_frame u c (strBytes "FDIS____") [] =
      Except.ok (5 :: (u ++ c ++ strBytes "FDIS____" ++ [] ++ [13, 10])) :=
    build_command_frame_ok8 (by decide) hua hca (by decide) (by simp)
  constructor
  · unfold get_current_weight
    rw [send_command_empty tr s hbG (hempty _ _)]
  · unfold discharge_all
    rw [send_command_empty tr s hbD (hempty _ _)]

theorem C7_no_response_witness :
    (get_current_weight (fun _ => none)
        (fun (_ : Unit) (_ : List Nat) => (([] : List Nat), ())) ()
        (strBytes "00") (strBytes "00")).1 = Except.ok (none, ()) ∧
    (discharge_all (fun (_ : Unit) (_ : List Nat) => (([] : List Nat), ())) ()
        (strBytes "00") (strBytes "00")).1 = Except.ok (false, ()) :=
  C7_no_response _ _ () (strBytes "00") (strBytes "00") (by decide)
    (by decide) (fun _ _ => rfl)

/-- C1 (divergence): Python's `f"+{amount:010.3f}"` zero-pads the whole
fixed-point rendering — point and decimals included — to a TOTAL width of 10
characters, so amount 120.0 is sent as text `+000120.000` and 0.5 as
`+000000.500`, not as the 8-integer-digit forms `+00000120.000` /
`+00000000.500` that the specification (and the comment in the source)
describe.  The last conjunct evaluates `cut_out_amount` itself: the single
frame it writes for amount 120.0 carries the text `+000120.000`. -/
theorem C1_format_divergence :
    cutOutText 120000 = strBytes "+000120.000" ∧
    cutOutText 120000 ≠ strBytes "+00000120.000" ∧
    cutOutText 500 = strBytes "+000000.500" ∧
    cutOutText 500 ≠ strBytes "+00000000.500" ∧
    (cut_out_amount (fun (_ : Unit) (_ : List Nat) => (([] : List Nat), ()))
        () (strBytes "00") (strBytes "00") 120000).2 =
      [5 :: (strBytes "00" ++ strBytes "00" ++ strBytes "FF______" ++
        strBytes "+000120.000" ++ [13, 10])] :=
  ⟨by decide, by decide, by decide, by decide, by decide⟩
